import Mathlib

/-
Verification of the tavern-frontend password-recovery wizard
(src/src/pages/ForgotPassword.tsx) and its HTTP client shim
(src/unnamed/part_000, an axios instance with a request interceptor).

The React component is embedded shallowly: the useState fields become a
record `FPState`; each async handler becomes a pure function from the
pre-state and the network outcome (an `Except` mirroring the resolved or
rejected promise) to the post-state, the list of HTTP calls the handler
issued, and any navigation it scheduled via setTimeout. The translation
function `t` from LanguageContext is not in the sources, so every handler
is parameterised over an arbitrary `tr : String → String` applied to the
same keys the code passes to `t`. The JS `Number(telegramId)` conversion
is kept abstract: call payloads carry the raw string, since no property
here depends on the numeric encoding.
-/

namespace TavernFrontend

/-- `type RecoveryMethod = 'telegram' | 'email' | null` — the two non-null
alternatives; the null case is `Option.none` at use sites. -/
inductive RecoveryMethod
  | telegram
  | email
deriving DecidableEq, Repr

/-- `interface RecoveryOptions` from ForgotPassword.tsx. -/
structure RecoveryOptions where
  telegram : Bool
  email : Bool
  emailMasked : Option String
deriving DecidableEq, Repr

/-- The useState fields of the ForgotPassword component, in source order. -/
structure FPState where
  telegramId : String
  code : String
  newPassword : String
  confirmPassword : String
  oldPassword : String
  error : String
  success : String
  loading : Bool
  codeSent : Bool
  useOldPassword : Bool
  recoveryOptions : Option RecoveryOptions
  selectedMethod : Option RecoveryMethod
  optionsLoading : Bool
deriving DecidableEq, Repr

/-- The value of `error.response?.data?.error` on a rejected call: `none`
when any link of the optional chain is absent, `some s` when the field is
the string `s` (the empty string standing for a falsy value). -/
abbrev ApiError := Option String

/-- One HTTP POST issued through apiClient, by endpoint, with the body
fields the component passes (telegramId as the raw string). -/
inductive ApiCall
  | recoveryOptions (telegramId : String)
  | forgotPassword (telegramId : String) (method : Option RecoveryMethod)
  | resetPassword (telegramId : String) (code : String) (newPassword : String)
  | resetPasswordWithOld (telegramId : String) (oldPassword : String) (newPassword : String)
deriving DecidableEq, Repr

/-- The endpoint of an ApiCall, forgetting the body. -/
inductive Endpoint
  | recoveryOptions
  | forgotPassword
  | resetPassword
  | resetPasswordWithOld
deriving DecidableEq, Repr

def ApiCall.endpoint : ApiCall → Endpoint
  | .recoveryOptions _ => .recoveryOptions
  | .forgotPassword _ _ => .forgotPassword
  | .resetPassword _ _ _ => .resetPassword
  | .resetPasswordWithOld _ _ _ => .resetPasswordWithOld

/-- A navigation scheduled with `setTimeout(() => navigate(target), delayMs)`. -/
structure ScheduledNav where
  target : String
  delayMs : Nat
deriving DecidableEq, Repr

/-- What one handler run produces: the post-state, the calls it issued,
and the navigation it scheduled, if any. -/
structure HandlerResult where
  state : FPState
  calls : List ApiCall
  nav : Option ScheduledNav
deriving DecidableEq, Repr

/-- `error.response?.data?.error || t('forgotPassword.errors.resetFailed')`:
the field when present and truthy, the generic localized message otherwise. -/
def displayedError (tr : String → String) (e : ApiError) : String :=
  match e with
  | some s => if s = "" then tr "forgotPassword.errors.resetFailed" else s
  | none => tr "forgotPassword.errors.resetFailed"

/-- `handleCheckOptions` (ForgotPassword.tsx lines 34 to 56): clear the
error, post to /auth/recovery-options, store the options on success and
auto-select the method when exactly one channel is enabled, show the
error on failure, clear the busy flag in finally. -/
def handleCheckOptions (tr : String → String) (s : FPState)
    (resp : Except ApiError RecoveryOptions) : HandlerResult :=
  let s1 := { s with error := "", optionsLoading := true }
  let call := ApiCall.recoveryOptions s1.telegramId
  let s2 :=
    match resp with
    | .ok d =>
        let sa := { s1 with recoveryOptions := some d }
        if d.telegram && !d.email then
          { sa with selectedMethod := some RecoveryMethod.telegram }
        else if !d.telegram && d.email then
          { sa with selectedMethod := some RecoveryMethod.email }
        else sa
    | .error e => { s1 with error := displayedError tr e }
  { state := { s2 with optionsLoading := false }, calls := [call], nav := none }

/-- `handleRequestCode` (ForgotPassword.tsx lines 58 to 79): clear error
and success, post to /auth/forgot-password, on success set codeSent and a
method-specific confirmation, on failure show the error, clear the busy
flag in finally. -/
def handleRequestCode (tr : String → String) (s : FPState)
    (resp : Except ApiError Unit) : HandlerResult :=
  let s1 := { s with error := "", success := "", loading := true }
  let call := ApiCall.forgotPassword s1.telegramId s1.selectedMethod
  let s2 :=
    match resp with
    | .ok _ =>
        { s1 with
          codeSent := true
          success :=
            if s1.selectedMethod = some RecoveryMethod.email then
              tr "forgotPassword.codeSentEmail"
            else tr "forgotPassword.codeSent" }
    | .error e => { s1 with error := displayedError tr e }
  { state := { s2 with loading := false }, calls := [call], nav := none }

/-- `handleResetPassword` (ForgotPassword.tsx lines 81 to 119): clear
error and success; reject a mismatch, then a too-short password, before
any network call; otherwise post to exactly one of the two reset
endpoints depending on useOldPassword; on success set the confirmation
and schedule navigation to /login after 2000 ms; on failure show the
error; clear the busy flag in finally. -/
def handleResetPassword (tr : String → String) (s : FPState)
    (resp : Except ApiError Unit) : HandlerResult :=
  let s1 := { s with error := "", success := "" }
  if s1.newPassword ≠ s1.confirmPassword then
    { state := { s1 with error := tr "forgotPassword.errors.mismatch" }
      calls := [], nav := none }
  else if s1.newPassword.length < 6 then
    { state := { s1 with error := tr "forgotPassword.errors.tooShort" }
      calls := [], nav := none }
  else
    let s2 := { s1 with loading := true }
    let call :=
      if s2.useOldPassword then
        ApiCall.resetPasswordWithOld s2.telegramId s2.oldPassword s2.newPassword
      else
        ApiCall.resetPassword s2.telegramId s2.code s2.newPassword
    match resp with
    | .ok _ =>
        { state := { s2 with success := tr "forgotPassword.passwordReset", loading := false }
          calls := [call]
          nav := some { target := "/login", delayMs := 2000 } }
    | .error e =>
        { state := { s2 with error := displayedError tr e, loading := false }
          calls := [call], nav := none }

/-- `resetState` (ForgotPassword.tsx lines 121 to 128), the cancel action
of the channel-selection screen. -/
def resetState (s : FPState) : FPState :=
  { s with
    recoveryOptions := none
    selectedMethod := none
    codeSent := false
    code := ""
    error := ""
    success := "" }

/-- The onClick of the old-password toggle on the Identify form
(ForgotPassword.tsx line 163): `setUseOldPassword(true)`. -/
def activateOldPassword (s : FPState) : FPState :=
  { s with useOldPassword := true }

/-- The four branches of the render ternary chain. -/
inductive Step
  | identify
  | chooseChannel
  | requestCode
  | submitPassword
deriving DecidableEq, Repr

/-- Which branch of the nested ternary in the render (ForgotPassword.tsx
lines 139, 168, 204, 232) is shown for a given state. -/
def renderStep (s : FPState) : Step :=
  if s.recoveryOptions.isNone && !s.useOldPassword then Step.identify
  else if s.recoveryOptions.isSome && s.selectedMethod.isNone then Step.chooseChannel
  else if s.recoveryOptions.isSome && s.selectedMethod.isSome && !s.codeSent then
    Step.requestCode
  else Step.submitPassword

/-- The method buttons rendered on the channel-selection screen
(ForgotPassword.tsx lines 173 to 194): the Telegram button always, the
email button only when the options report email as enabled. -/
def channelButtons (opts : RecoveryOptions) : List RecoveryMethod :=
  RecoveryMethod.telegram :: (if opts.email then [RecoveryMethod.email] else [])

/-- The wizard-step-determining fields of the state: everything except
error, success and the two busy flags. -/
def stepFields (s : FPState) :
    Option RecoveryOptions × Option RecoveryMethod × Bool × Bool ×
      String × String × String × String × String :=
  (s.recoveryOptions, s.selectedMethod, s.codeSent, s.useOldPassword,
   s.telegramId, s.code, s.newPassword, s.confirmPassword, s.oldPassword)

/-- An axios request config, reduced to its headers. -/
structure RequestConfig where
  headers : List (String × String)
deriving DecidableEq, Repr

/-- JS property assignment on the headers object: replace the value of an
existing key, append otherwise. -/
def setHeader : List (String × String) → String → String → List (String × String)
  | [], k, v => [(k, v)]
  | (k', v') :: rest, k, v =>
      if k' = k then (k, v) :: rest else (k', v') :: setHeader rest k v

/-- Read a header by key. -/
def getHeader (hs : List (String × String)) (k : String) : Option String :=
  (hs.find? (fun p => p.1 == k)).map Prod.snd

/-- The apiClient request interceptor (src/unnamed/part_000 lines 9 to 15):
read localStorage accessToken and, when it is truthy, set the
Authorization header to the bearer form; return the config unchanged
otherwise. `getItem` stands for `localStorage.getItem`. -/
def requestInterceptor (getItem : String → Option String)
    (config : RequestConfig) : RequestConfig :=
  match getItem "accessToken" with
  | some token =>
      if token = "" then config
      else
        { config with
          headers := setHeader config.headers "Authorization" ("Bearer " ++ token) }
  | none => config

/-- A concrete state used by witnesses: everything empty or false. -/
def blankState : FPState :=
  { telegramId := "", code := "", newPassword := "", confirmPassword := ""
    oldPassword := "", error := "", success := "", loading := false
    codeSent := false, useOldPassword := false, recoveryOptions := none
    selectedMethod := none, optionsLoading := false }

/-- Helper: any state with a selected method never renders the
channel-selection branch. -/
theorem renderStep_ne_chooseChannel_of_selected (s : FPState)
    (h : s.selectedMethod.isSome = true) : renderStep s ≠ Step.chooseChannel := by
  unfold renderStep
  split
  · simp
  · split
    · simp_all
    · split <;> simp

/-- C2: for every submission with newPassword different from
confirmPassword, handleResetPassword sets the error to the mismatch
message and returns with no network call and no scheduled navigation. -/
theorem c2_mismatch_blocks_submission (tr : String → String) (s : FPState)
    (resp : Except ApiError Unit) (h : s.newPassword ≠ s.confirmPassword) :
    (handleResetPassword tr s resp).state.error = tr "forgotPassword.errors.mismatch"
    ∧ (handleResetPassword tr s resp).calls = []
    ∧ (handleResetPassword tr s resp).nav = none := by
  simp [handleResetPassword, h]

/-- Witness for C2 at newPassword "a", confirmPassword "b". -/
theorem c2_witness :
    (handleResetPassword id
        { blankState with newPassword := "a", confirmPassword := "b" }
        (Except.ok ())).state.error = id "forgotPassword.errors.mismatch"
    ∧ (handleResetPassword id
        { blankState with newPassword := "a", confirmPassword := "b" }
        (Except.ok ())).calls = []
    ∧ (handleResetPassword id
        { blankState with newPassword := "a", confirmPassword := "b" }
        (Except.ok ())).nav = none :=
  c2_mismatch_blocks_submission id
    { blankState with newPassword := "a", confirmPassword := "b" }
    (Except.ok ()) (by decide)

/-- C1 as stated is false: with newPassword "abc" (3 characters, below 6)
and confirmPassword "abd", the mismatch check at line 86 fires first, so
the error is the mismatch message, not the too-short message. -/
theorem c1_counterexample :
    ("abc".length < 6)
    ∧ (handleResetPassword id
        { blankState with newPassword := "abc", confirmPassword := "abd" }
        (Except.ok ())).state.error ≠ id "forgotPassword.errors.tooShort" := by
  constructor
  · decide
  · decide

/-- C1 amended: for every submission with newPassword shorter than 6
characters, handleResetPassword returns with no network call and no
scheduled navigation, and when the confirmation also matches the new
password the error is the too-short message. -/
theorem c1_short_password_blocked (tr : String → String) (s : FPState)
    (resp : Except ApiError Unit) (h : s.newPassword.length < 6) :
    (handleResetPassword tr s resp).calls = []
    ∧ (handleResetPassword tr s resp).nav = none
    ∧ (s.newPassword = s.confirmPassword →
        (handleResetPassword tr s resp).state.error = tr "forgotPassword.errors.tooShort") := by
  by_cases hm : s.newPassword = s.confirmPassword
  · simp [handleResetPassword, hm, hm ▸ h]
  · simp [handleResetPassword, hm]

/-- Witness for the amended C1 at newPassword = confirmPassword = "abc". -/
theorem c1_witness :
    (handleResetPassword id
        { blankState with newPassword := "abc", confirmPassword := "abc" }
        (Except.ok ())).calls = []
    ∧ (handleResetPassword id
        { blankState with newPassword := "abc", confirmPassword := "abc" }
        (Except.ok ())).nav = none
    ∧ (handleResetPassword id
        { blankState with newPassword := "abc", confirmPassword := "abc" }
        (Except.ok ())).state.error = id "forgotPassword.errors.tooShort" :=
  let h := c1_short_password_blocked id
    { blankState with newPassword := "abc", confirmPassword := "abc" }
    (Except.ok ()) (by decide)
  ⟨h.1, h.2.1, h.2.2 rfl⟩

/-- C3: on a successful recovery-options response with exactly one
channel enabled, handleCheckOptions auto-selects that channel, and the
resulting state never renders the channel-selection branch. -/
theorem c3_single_channel_autoselect (tr : String → String) (s : FPState)
    (d : RecoveryOptions) (h : d.telegram ≠ d.email) :
    (handleCheckOptions tr s (Except.ok d)).state.selectedMethod =
      some (if d.telegram then RecoveryMethod.telegram else RecoveryMethod.email)
    ∧ renderStep (handleCheckOptions tr s (Except.ok d)).state ≠ Step.chooseChannel := by
  rcases d with ⟨t, e, m⟩
  cases t <;> cases e <;> simp_all <;>
    (refine ⟨by simp [handleCheckOptions], ?_⟩
     exact renderStep_ne_chooseChannel_of_selected _ (by simp [handleCheckOptions]))

/-- Witness for C3 at a response with only telegram enabled. -/
theorem c3_witness :
    (handleCheckOptions id blankState
        (Except.ok { telegram := true, email := false, emailMasked := none })).state.selectedMethod
      = some RecoveryMethod.telegram
    ∧ renderStep (handleCheckOptions id blankState
        (Except.ok { telegram := true, email := false, emailMasked := none })).state
      ≠ Step.chooseChannel := by
  simpa using c3_single_channel_autoselect id blankState
    { telegram := true, email := false, emailMasked := none } (by decide)

/-- C4: when the old-password path is activated from the Identify step
(so recoveryOptions is still none), the wizard renders the final
password form directly, and a submission that passes client-side
validation issues exactly one call, to /auth/reset-password-with-old:
neither /auth/reset-password nor the options-lookup or code-request
endpoints are called. -/
theorem c4_old_password_path (tr : String → String) (s : FPState)
    (resp : Except ApiError Unit) (hopts : s.recoveryOptions = none) :
    renderStep (activateOldPassword s) = Step.submitPassword
    ∧ (s.newPassword = s.confirmPassword → 6 ≤ s.newPassword.length →
        (handleResetPassword tr (activateOldPassword s) resp).calls.map ApiCall.endpoint
          = [Endpoint.resetPasswordWithOld]) := by
  constructor
  · simp [renderStep, activateOldPassword, hopts]
  · intro hm hl
    cases resp <;>
      simp [handleResetPassword, activateOldPassword, hm, Nat.not_lt.mpr (hm ▸ hl),
        ApiCall.endpoint]

/-- Witness for C4 at a blank Identify-step state with a valid password. -/
theorem c4_witness :
    renderStep (activateOldPassword
      { blankState with newPassword := "secret", confirmPassword := "secret" })
      = Step.submitPassword
    ∧ (handleResetPassword id (activateOldPassword
        { blankState with newPassword := "secret", confirmPassword := "secret" })
        (Except.ok ())).calls.map ApiCall.endpoint = [Endpoint.resetPasswordWithOld] :=
  let h := c4_old_password_path id
    { blankState with newPassword := "secret", confirmPassword := "secret" }
    (Except.ok ()) rfl
  ⟨h.1, h.2 rfl (by decide)⟩

/-- C5: on a successful reset the handler sets the success message and,
in the same step, schedules navigation to /login with a 2000 ms delay;
the navigation exists only as this scheduled event, so it cannot happen
before the success message is set or before the delay elapses. -/
theorem c5_success_schedules_navigation (tr : String → String) (s : FPState)
    (hm : s.newPassword = s.confirmPassword) (hl : 6 ≤ s.newPassword.length) :
    (handleResetPassword tr s (Except.ok ())).state.success = tr "forgotPassword.passwordReset"
    ∧ (handleResetPassword tr s (Except.ok ())).nav =
        some { target := "/login", delayMs := 2000 } := by
  simp [handleResetPassword, hm, Nat.not_lt.mpr (hm ▸ hl)]

/-- Witness for C5 at newPassword = confirmPassword = "secret". -/
theorem c5_witness :
    (handleResetPassword id
        { blankState with newPassword := "secret", confirmPassword := "secret" }
        (Except.ok ())).state.success = id "forgotPassword.passwordReset"
    ∧ (handleResetPassword id
        { blankState with newPassword := "secret", confirmPassword := "secret" }
        (Except.ok ())).nav = some { target := "/login", delayMs := 2000 } :=
  c5_success_schedules_navigation id
    { blankState with newPassword := "secret", confirmPassword := "secret" }
    rfl (by decide)

/-- Helper: a rejected reset call never changes the step-determining
fields of the state. -/
theorem resetPassword_error_stepFields (tr : String → String) (s : FPState) (e : ApiError) :
    stepFields (handleResetPassword tr s (Except.error e)).state = stepFields s := by
  by_cases h1 : s.newPassword = s.confirmPassword
  · by_cases h2 : s.confirmPassword.length < 6
    · simp [handleResetPassword, stepFields, h1, h2]
    · simp [handleResetPassword, stepFields, h1, h2]
  · simp [handleResetPassword, stepFields, h1]

/-- Helper: a rejected reset call never changes the rendered step. -/
theorem resetPassword_error_renderStep (tr : String → String) (s : FPState) (e : ApiError) :
    renderStep (handleResetPassword tr s (Except.error e)).state = renderStep s := by
  by_cases h1 : s.newPassword = s.confirmPassword
  · by_cases h2 : s.confirmPassword.length < 6
    · simp [handleResetPassword, renderStep, h1, h2]
    · simp [handleResetPassword, renderStep, h1, h2]
  · simp [handleResetPassword, renderStep, h1]

/-- C6: a rejected network call in any of the three handlers leaves every
wizard-step field (recoveryOptions, selectedMethod, codeSent,
useOldPassword, and all input fields) unchanged, so the rendered step is
the same before and after the failure. -/
theorem c6_failure_preserves_step (tr : String → String) (s : FPState) (e : ApiError) :
    stepFields (handleCheckOptions tr s (Except.error e)).state = stepFields s
    ∧ stepFields (handleRequestCode tr s (Except.error e)).state = stepFields s
    ∧ stepFields (handleResetPassword tr s (Except.error e)).state = stepFields s
    ∧ renderStep (handleCheckOptions tr s (Except.error e)).state = renderStep s
    ∧ renderStep (handleRequestCode tr s (Except.error e)).state = renderStep s
    ∧ renderStep (handleResetPassword tr s (Except.error e)).state = renderStep s :=
  ⟨rfl, rfl, resetPassword_error_stepFields tr s e, rfl, rfl,
    resetPassword_error_renderStep tr s e⟩

/-- C7: on a rejected call the displayed error is the error field of the
response data whenever that field is present and truthy, and the generic
localized reset-failed message when it is absent or empty; the options
and code-request conjuncts hold for every state, while a reset rejection
presupposes a submission that passed client-side validation. -/
theorem c7_error_message_selection (tr : String → String) (s : FPState) (m : String)
    (hne : m ≠ "") :
    ((handleCheckOptions tr s (Except.error (some m))).state.error = m
      ∧ (handleRequestCode tr s (Except.error (some m))).state.error = m
      ∧ (s.newPassword = s.confirmPassword → 6 ≤ s.newPassword.length →
          (handleResetPassword tr s (Except.error (some m))).state.error = m))
    ∧ ((handleCheckOptions tr s (Except.error none)).state.error
          = tr "forgotPassword.errors.resetFailed"
      ∧ (handleRequestCode tr s (Except.error none)).state.error
          = tr "forgotPassword.errors.resetFailed"
      ∧ (s.newPassword = s.confirmPassword → 6 ≤ s.newPassword.length →
          (handleResetPassword tr s (Except.error none)).state.error
            = tr "forgotPassword.errors.resetFailed"))
    ∧ ((handleCheckOptions tr s (Except.error (some ""))).state.error
          = tr "forgotPassword.errors.resetFailed"
      ∧ (handleRequestCode tr s (Except.error (some ""))).state.error
          = tr "forgotPassword.errors.resetFailed"
      ∧ (s.newPassword = s.confirmPassword → 6 ≤ s.newPassword.length →
          (handleResetPassword tr s (Except.error (some ""))).state.error
            = tr "forgotPassword.errors.resetFailed")) := by
  refine ⟨⟨?_, ?_, ?_⟩, ⟨?_, ?_, ?_⟩, ⟨?_, ?_, ?_⟩⟩ <;>
    first
      | (simp [handleCheckOptions, handleRequestCode, displayedError, hne]; done)
      | (intro hv hl
         simp [handleResetPassword, displayedError, hne, hv, Nat.not_lt.mpr (hv ▸ hl)])

/-- Witness for C7 at message "boom" and a valid six-character password. -/
theorem c7_witness :
    (handleCheckOptions id
        { blankState with newPassword := "secret", confirmPassword := "secret" }
        (Except.error (some "boom"))).state.error = "boom"
    ∧ (handleResetPassword id
        { blankState with newPassword := "secret", confirmPassword := "secret" }
        (Except.error none)).state.error = id "forgotPassword.errors.resetFailed" :=
  let h := c7_error_message_selection id
    { blankState with newPassword := "secret", confirmPassword := "secret" }
    "boom" (by decide)
  ⟨h.1.1, h.2.1.2.2 rfl (by decide)⟩

/-- C8: when localStorage holds a non-empty accessToken the interceptor
sets the Authorization header to Bearer followed by the token; when no
value is stored it returns the config unchanged. -/
theorem c8_interceptor_bearer (getItem : String → Option String)
    (config : RequestConfig) (tok : String)
    (hget : getItem "accessToken" = some tok) (hne : tok ≠ "") :
    getHeader (requestInterceptor getItem config).headers "Authorization"
        = some ("Bearer " ++ tok)
    ∧ (∀ g : String → Option String, g "accessToken" = none →
        requestInterceptor g config = config) := by
  constructor
  · have hfind : ∀ hs : List (String × String),
        getHeader (setHeader hs "Authorization" ("Bearer " ++ tok)) "Authorization"
          = some ("Bearer " ++ tok) := by
      intro hs
      induction hs with
      | nil => simp [setHeader, getHeader]
      | cons p rest ih =>
          by_cases hk : p.1 = "Authorization"
          · simp [setHeader, getHeader, hk]
          · rcases p with ⟨k, v⟩
            simp only at hk
            simp [setHeader, getHeader, hk, List.find?] at ih ⊢
            exact ih
    simp only [requestInterceptor, hget]
    rw [if_neg hne]
    exact hfind config.headers
  · intro g hg
    simp [requestInterceptor, hg]

/-- Witness for C8 with token tok on an empty header list. -/
theorem c8_witness :
    getHeader (requestInterceptor
        (fun k => if k = "accessToken" then some "tok" else none)
        { headers := [] }).headers "Authorization" = some ("Bearer " ++ "tok")
    ∧ requestInterceptor (fun _ => none) { headers := [] } = { headers := [] } :=
  let h := c8_interceptor_bearer
    (fun k => if k = "accessToken" then some "tok" else none)
    { headers := [] } "tok" (by simp) (by decide)
  ⟨h.1, h.2 (fun _ => none) rfl⟩

/-- C9: the channel-selection screen always renders the Telegram button,
even for options with telegram reported false, while the email button is
rendered exactly when the options report email as enabled. -/
theorem c9_telegram_button_unconditional (opts : RecoveryOptions) :
    RecoveryMethod.telegram ∈ channelButtons opts
    ∧ (RecoveryMethod.email ∈ channelButtons opts ↔ opts.email = true) := by
  rcases opts with ⟨t, e, m⟩
  cases e <;> simp [channelButtons]

/-- C10: resetState clears recoveryOptions, selectedMethod, codeSent,
code, error and success, leaves telegramId, newPassword, confirmPassword
and oldPassword unchanged, and (when the old-password path is off, as on
the screen offering the cancel button) lands back on the Identify step. -/
theorem c10_resetState_frame (s : FPState)
    (hold : s.useOldPassword = false) :
    (resetState s).recoveryOptions = none
    ∧ (resetState s).selectedMethod = none
    ∧ (resetState s).codeSent = false
    ∧ (resetState s).code = ""
    ∧ (resetState s).error = ""
    ∧ (resetState s).success = ""
    ∧ (resetState s).telegramId = s.telegramId
    ∧ (resetState s).newPassword = s.newPassword
    ∧ (resetState s).confirmPassword = s.confirmPassword
    ∧ (resetState s).oldPassword = s.oldPassword
    ∧ renderStep (resetState s) = Step.identify := by
  refine ⟨rfl, rfl, rfl, rfl, rfl, rfl, rfl, rfl, rfl, rfl, ?_⟩
  simp [renderStep, resetState, hold]

/-- Witness for C10 at a mid-wizard state with typed passwords. -/
theorem c10_witness :
    (resetState { blankState with
        recoveryOptions := some { telegram := true, email := true, emailMasked := some "a***@b.com" }
        selectedMethod := some RecoveryMethod.email
        telegramId := "12345", newPassword := "secret", confirmPassword := "secret" }).telegramId
      = "12345"
    ∧ (resetState { blankState with
        recoveryOptions := some { telegram := true, email := true, emailMasked := some "a***@b.com" }
        selectedMethod := some RecoveryMethod.email
        telegramId := "12345", newPassword := "secret", confirmPassword := "secret" }).newPassword
      = "secret"
    ∧ renderStep (resetState { blankState with
        recoveryOptions := some { telegram := true, email := true, emailMasked := some "a***@b.com" }
        selectedMethod := some RecoveryMethod.email
        telegramId := "12345", newPassword := "secret", confirmPassword := "secret" })
      = Step.identify :=
  let h := c10_resetState_frame { blankState with
    recoveryOptions := some { telegram := true, email := true, emailMasked := some "a***@b.com" }
    selectedMethod := some RecoveryMethod.email
    telegramId := "12345", newPassword := "secret", confirmPassword := "secret" } rfl
  ⟨h.2.2.2.2.2.2.1, h.2.2.2.2.2.2.2.1, h.2.2.2.2.2.2.2.2.2.2⟩

end TavernFrontend
